import Mathlib

/-!
Verification of the wishengine reply-classification bot (`src/bot.py`).

The repository ships only `src/bot.py`; the modules it imports
(`states.BotStates`, `parser.Parser`, `api_client.MessageAPIClient`) are
not part of the source tree, so those components are modelled from the
specification (each such definition carries a doc comment saying so).
`bot.py` itself is embedded faithfully: the reply handler
`answer_if_user_responds_to_claude` and the `/fetch` command handler are
modelled as pure functions producing the ordered trace of observable
events (log lines, the outbound Telegram message, the store/fetch calls).
-/

namespace Wishengine

/-- Modelled from the spec: `StateModel` / `states.BotStates` (not under
`src/`) — the closed set of classification outcomes. -/
inductive BotStates
  | POSITIVE
  | NEGATIVE
  | UNKNOWN
deriving DecidableEq, Repr

/-- Modelled from the spec: the canonical string token of each state
(`BotStates` member `.value` / `toToken`); a fixed lowercase token used
verbatim as stored field and query-filter value. -/
def BotStates.value : BotStates → String
  | .POSITIVE => "positive"
  | .NEGATIVE => "negative"
  | .UNKNOWN  => "unknown"

/-- Modelled from the spec: Python `str()` applied to a `BotStates` member,
as done at `bot.py` line 125 (`state = str(p.get_state())`). The spec makes
the serialization single-sourced through the state model, so the string
conversion coincides with the canonical token. -/
def BotStates.toStr (s : BotStates) : String := s.value

/-- The result record a `Parser.process` call leaves behind, read back by
`get_state`, `get_text` (the response to send) and `get_text_clean`. -/
structure ParseResult where
  state : BotStates
  text_clean : String
  response : String
deriving DecidableEq, Repr

/-- Strip leading and trailing whitespace (the normalization of a reply). -/
def stripWs (s : String) : String :=
  ⟨((s.data.dropWhile Char.isWhitespace).reverse.dropWhile Char.isWhitespace).reverse⟩

/-- Lowercase a string character by character. -/
def lowerStr (s : String) : String := ⟨s.data.map Char.toLower⟩

/-- Modelled from the spec: the affirmative surface-pattern token set of the
classification rules (the exact set is an open question in the design; the
contract only requires a deterministic set). -/
def affirmative_tokens : List String := ["yes", "y", "yeah", "yep", "sure", "ok"]

/-- Modelled from the spec: the negative surface-pattern token set. -/
def negative_tokens : List String := ["no", "n", "nope", "nah"]

/-- Modelled from the spec: `parser.Parser.process` (not under `src/`).
Rule 1: an empty or all-whitespace reply yields state UNKNOWN, empty clean
text, empty response. Rule 2: otherwise classify deterministically
(normalization before matching) against the affirmative/negative token
sets; anything matching neither is UNKNOWN, with empty response (silently
dropped) and empty clean text. -/
def Parser.process (prompt reply : String) : ParseResult :=
  if reply.data.all Char.isWhitespace then
    ⟨.UNKNOWN, "", ""⟩
  else
    let norm := lowerStr (stripWs reply)
    if affirmative_tokens.contains norm then
      ⟨.POSITIVE, stripWs reply, "Glad to hear it!"⟩
    else if negative_tokens.contains norm then
      ⟨.NEGATIVE, stripWs reply, "Noted."⟩
    else
      ⟨.UNKNOWN, "", ""⟩

/-- An observable action of a handler, in program order. -/
inductive Event
  | logDebug (msg : String)
  | logInfo (msg : String)
  | logError (msg : String)
  | parse (prompt reply : String)
  | sendMessage (text : String)
  | storeCall (text state : String)
  | fetchCall (state : String) (limit : Nat)
deriving DecidableEq, Repr

/-- The message a Telegram reply points back at (`message.reply_to_message`). -/
structure ReplyTarget where
  text : String
deriving DecidableEq, Repr

/-- An inbound Telegram message: its text and, when it is a reply, the
message it replies to. -/
structure TgMessage where
  text : String
  reply_to_message : Option ReplyTarget
deriving DecidableEq, Repr

/-- An inbound Telegram update (`update.message` may be absent). -/
structure TgUpdate where
  message : Option TgMessage
deriving DecidableEq, Repr

/-- The outcome of the `api.store_message` call as seen by the handler:
either it returns a status, or it raises an exception carrying a message
(`StoreError` on network failure / timeout / non-success). -/
inductive StoreOutcome
  | returns (status : Bool)
  | raises (msg : String)
deriving DecidableEq, Repr

/-- The try-block tail of the handler (`bot.py` lines 129-131): call
`store_message`; a falsy status raises
`Exception('POST request to store ... did not return valid status')`;
a truthy status logs at info level. The result is the events of the block
together with the exception it raises, if any. -/
def store_try_body (o : StoreOutcome) (target : String) : List Event × Option String :=
  match o with
  | .raises m => ([], some m)
  | .returns status =>
    if status then
      ([.logInfo ("Storage of " ++ target ++ " returned status=True")], none)
    else
      ([], some ("POST request to store " ++ target ++ " did not return valid status"))

/-- The store step of the handler (`bot.py` lines 128-134): the
`store_message` call inside `try`, with `except Exception as e` logging
`Failed to store ... - ...` — so the step always returns a trace and never
re-raises. -/
def store_step (o : StoreOutcome) (text_clean state : String) : List Event :=
  let target := "[" ++ state ++ "]: " ++ text_clean
  let body := store_try_body o target
  Event.storeCall text_clean state ::
    (match body.2 with
     | none => body.1
     | some e => body.1 ++ [Event.logError ("Failed to store " ++ target ++ " - " ++ e)])

/-- The debug log emitted when the parser produced no response
(`bot.py` lines 117-118); note the code then falls through to
`reply_text` regardless. -/
def response_debug (msg_text response : String) : List Event :=
  if response = "" then
    [Event.logDebug ("Doing nothing. Response was not generated for user input " ++ msg_text)]
  else
    []

/-- Embedding of `answer_if_user_responds_to_claude` (`bot.py` lines
97-134) as the trace of its observable events, parametrized by the outcome
of the `store_message` network call. -/
def answer_if_user_responds_to_claude (o : StoreOutcome) (u : TgUpdate) : List Event :=
  match u.message with
  | none => [.logDebug "Ignoring latest message due to no content"]
  | some message =>
    match message.reply_to_message with
    | none => [.logDebug ("Ignoring latest message due to not a reply " ++ message.text)]
    | some replied =>
      let prompt := replied.text
      let p := Parser.process prompt message.text
      [Event.logDebug ("Latest message was a reply to prompt " ++ prompt),
       Event.parse prompt message.text]
      ++ response_debug message.text p.response
      ++ [Event.sendMessage p.response]
      ++ store_step o p.text_clean (BotStates.toStr p.state)

/-- The persisted record shape (`StoredMessage`): the text and the state
token it was stored under. The remote store supplies id/timestamp; the core
supplies only these two fields. -/
structure StoredMessage where
  text : String
  state : String
deriving DecidableEq, Repr

/-- Modelled from the spec: the remote message store behind
`api_client.MessageAPIClient` (not under `src/`), as the list of accepted
records, newest first. -/
def StoreDB : Type := List StoredMessage

/-- Modelled from the spec: `MessageAPIClient.store_message(text, state)` —
`POST /messages` with body text and state token; on acceptance the store
prepends the record and the client returns a confirmed-success status. -/
def store_message (db : StoreDB) (text state : String) : StoreDB × Bool :=
  (StoredMessage.mk text state :: db, true)

/-- Modelled from the spec: `MessageAPIClient.get_messages` / `fetch` —
`GET /messages?state=token&limit=n`: up to `limit` records matching the
state token, in store order; the client does not re-sort. -/
def get_messages (db : StoreDB) (state : String) (limit : Nat) : List StoredMessage :=
  (List.filter (fun r => r.state = state) db).take limit

/-- A raw record as decoded from the store response in the `/fetch`
handler: a JSON dict (key/value pairs, values rendered as display text) or
some other JSON value. -/
inductive RawRecord
  | dict (fields : List (String × String))
  | other (display : String)
deriving DecidableEq, Repr

/-- The conformance check of the `/fetch` loop (`bot.py` line 88):
`type(m) is dict and 'text' in m.keys()`. -/
def RawRecord.has_text : RawRecord → Bool
  | .dict fields => fields.any (fun kv => kv.fst = "text")
  | .other _ => false

/-- The `m['text']` access of `bot.py` line 89; the code only performs it
under the `has_text` guard, where the lookup succeeds. -/
def RawRecord.item_text : RawRecord → String
  | .dict fields => (fields.lookup "text").getD ""
  | .other _ => ""

/-- The element a conforming record contributes to `print_me`
(`bot.py` line 89): `[state] text`. -/
def fmt_record (state : String) (m : RawRecord) : String :=
  "[" ++ state ++ "] " ++ m.item_text

/-- The per-state inner loop of the `/fetch` handler (`bot.py` lines
87-92): conforming records are appended to `print_me`, each non-conforming
record is skipped with a logged diagnostic naming its index. Returns the
appended display lines and the log events, both in loop order. -/
def fetch_scan (state : String) (i : Nat) : List RawRecord → List String × List Event
  | [] => ([], [])
  | m :: rest =>
    let tail := fetch_scan state (i + 1) rest
    if m.has_text then
      (fmt_record state m :: tail.1, tail.2)
    else
      (tail.1,
       Event.logError ("Skipping message_" ++ state ++ "_" ++ toString i
         ++ " due to invalid format") :: tail.2)

/-- The reply sent by the dead branch of the `/fetch` handler
(`bot.py` line 83). -/
def no_messages_text : String := "No messages found from me (wishengine)"

/-- The `messages_list` literal of `bot.py` lines 80-81: one entry per
POSITIVE and NEGATIVE state, regardless of what the fetches returned. -/
def fetch_messages_list (messages_yes messages_no : List RawRecord) :
    List (String × List RawRecord) :=
  [(BotStates.POSITIVE.value, messages_yes), (BotStates.NEGATIVE.value, messages_no)]

/-- The display lines of `bot.py` line 94: `Message #i:` ++ newline ++
the print_me entry, enumerated from 0. -/
def enumerate_lines (print_me : List String) : List String :=
  print_me.enum.map (fun p => "Message #" ++ toString p.fst ++ ":\n" ++ p.snd)

/-- The non-empty-`messages_list` branch of the `/fetch` handler
(`bot.py` lines 86-95): scan both per-state record lists, then send the
joined, enumerated lines as one message. -/
def fetch_display (messages_yes messages_no : List RawRecord) : List Event :=
  let scan_yes := fetch_scan BotStates.POSITIVE.value 0 messages_yes
  let scan_no := fetch_scan BotStates.NEGATIVE.value 0 messages_no
  let print_me := scan_yes.1 ++ scan_no.1
  scan_yes.2 ++ scan_no.2
    ++ [Event.sendMessage (String.intercalate "\n\n" (enumerate_lines print_me))]

/-- Embedding of the `/fetch` command handler (`bot.py` lines 78-95) as
the trace of its observable events, parametrized by the record lists the
two `get_messages` calls returned. The two `fetchCall` events record the
query-filter token and limit each call was issued with. -/
def fetch_handler (messages_yes messages_no : List RawRecord) : List Event :=
  [Event.fetchCall BotStates.POSITIVE.value 1,
   Event.fetchCall BotStates.NEGATIVE.value 1]
  ++ (if (fetch_messages_list messages_yes messages_no).isEmpty then
        [Event.sendMessage no_messages_text]
      else
        fetch_display messages_yes messages_no)

/-- Recognizer for `storeCall` events. -/
def Event.is_store_call : Event → Bool
  | .storeCall _ _ => true
  | _ => false

/-- Recognizer for `logError` events. -/
def Event.is_log_error : Event → Bool
  | .logError _ => true
  | _ => false

/-- Recognizer for `logDebug` events. -/
def Event.is_log_debug : Event → Bool
  | .logDebug _ => true
  | _ => false

lemma fetch_scan_lines (state : String) (messages : List RawRecord) (i : Nat) :
    (fetch_scan state i messages).1
      = (messages.filter RawRecord.has_text).map (fmt_record state) := by
  induction messages generalizing i with
  | nil => simp [fetch_scan]
  | cons m rest ih =>
    by_cases h : m.has_text
    · simp [fetch_scan, h, ih]
    · simp [fetch_scan, h, ih]

lemma fetch_scan_logs (state : String) (messages : List RawRecord) (i : Nat) :
    (fetch_scan state i messages).2.length
        = (messages.filter (fun m => !m.has_text)).length ∧
      (fetch_scan state i messages).2.all Event.is_log_error = true := by
  induction messages generalizing i with
  | nil => simp [fetch_scan]
  | cons m rest ih =>
    by_cases h : m.has_text
    · simpa [fetch_scan, h] using ih (i + 1)
    · simpa [fetch_scan, h, Event.is_log_error] using ih (i + 1)

lemma store_call_not_mem_response_debug (t s a b : String) :
    Event.storeCall t s ∉ response_debug a b := by
  unfold response_debug
  split <;> simp

lemma store_call_mem_store_step (o : StoreOutcome) (tc st t s : String)
    (h : Event.storeCall t s ∈ store_step o tc st) : t = tc ∧ s = st := by
  rcases o with status | emsg
  · rcases status with _ | _ <;>
      simpa [store_step, store_try_body] using h
  · simpa [store_step, store_try_body] using h

lemma store_step_head (o : StoreOutcome) (tc st : String) :
    ∃ rest, store_step o tc st = Event.storeCall tc st :: rest := by
  rcases o with status | emsg
  · rcases status with _ | _ <;> exact ⟨_, rfl⟩
  · exact ⟨_, rfl⟩

lemma store_step_fail_last (o : StoreOutcome) (tc st : String)
    (hfail : o = StoreOutcome.returns false ∨ ∃ e, o = StoreOutcome.raises e) :
    ∃ msg, (store_step o tc st).getLast? = some (Event.logError msg) := by
  rcases hfail with h | ⟨e, h⟩ <;> subst h <;> exact ⟨_, rfl⟩

lemma fetch_handler_eq (ys ns : List RawRecord) :
    fetch_handler ys ns
      = [Event.fetchCall BotStates.POSITIVE.value 1,
         Event.fetchCall BotStates.NEGATIVE.value 1] ++ fetch_display ys ns := rfl

lemma fetch_call_not_mem_scan (state s : String) (l i : Nat)
    (messages : List RawRecord) :
    Event.fetchCall s l ∉ (fetch_scan state i messages).2 := by
  intro hmem
  have hall := (fetch_scan_logs state messages i).2
  have := (List.all_eq_true.mp hall) _ hmem
  simp [Event.is_log_error] at this

end Wishengine

namespace Wishengine

/-- C8: for every state token, `get_messages` (the client `fetch`) with
`limit = 0` returns the empty sequence of records and signals no error
(the operation is a total function into record lists). -/
theorem fetch_limit_zero_empty (db : StoreDB) (state : String) :
    get_messages db state 0 = [] := by
  simp [get_messages]

/-- C6: storing a text under a state token and then fetching with the same
state token and limit 1, with no intervening writes, returns exactly the
record just stored — its text field equals the stored text, so the token
serialization round-trips unchanged through storage and the query filter. -/
theorem store_then_fetch_roundtrip (db : StoreDB) (text : String) (st : BotStates) :
    get_messages (store_message db text st.value).1 st.value 1
      = [StoredMessage.mk text st.value] := by
  simp [get_messages, store_message]

/-- C10: in the `/fetch` handler the `No messages found` branch is
unreachable — `messages_list` is always the two-element literal, so the
handler always takes the format-and-send branch, whatever the two fetches
returned. -/
theorem fetch_no_messages_branch_unreachable (ys ns : List RawRecord) :
    (fetch_messages_list ys ns).length = 2 ∧
      fetch_handler ys ns
        = [Event.fetchCall BotStates.POSITIVE.value 1,
           Event.fetchCall BotStates.NEGATIVE.value 1] ++ fetch_display ys ns := by
  exact ⟨rfl, rfl⟩

/-- C5: in the `/fetch` record loop, the displayed lines are exactly the
conforming records (dicts carrying a `text` key), each formatted, in
order; every non-conforming record contributes exactly one logged
diagnostic instead, and the scan is a total function — a malformed record
never fails the whole fetch-and-display operation. -/
theorem fetch_scan_partial_success (state : String) (i : Nat)
    (messages : List RawRecord) :
    (fetch_scan state i messages).1
        = (messages.filter RawRecord.has_text).map (fmt_record state) ∧
      (fetch_scan state i messages).2.length
        = (messages.filter (fun m => !m.has_text)).length ∧
      (fetch_scan state i messages).2.all Event.is_log_error = true := by
  exact ⟨fetch_scan_lines state messages i, (fetch_scan_logs state messages i).1,
    (fetch_scan_logs state messages i).2⟩

/-- C9: an update with no message, or whose message is not a reply, makes
the reply handler return early: its trace consists of debug log events
only — no `parse` (Parser construction and processing), no outbound
`sendMessage`, and no `storeCall` occurs. -/
theorem non_reply_ignored (o : StoreOutcome) (mtext : String) :
    (answer_if_user_responds_to_claude o ⟨none⟩).all Event.is_log_debug = true ∧
      (answer_if_user_responds_to_claude o ⟨some ⟨mtext, none⟩⟩).all
          Event.is_log_debug = true := by
  exact ⟨rfl, rfl⟩

/-- C2: on every inbound reply, a `sendMessage` event occurs strictly
before the first `storeCall` event (it lies in the longest storeCall-free
prefix of the trace), and a `storeCall` is attempted for every outcome —
including a raising or failing store — so a store failure can never
prevent the already-delivered user-facing response. -/
theorem response_sent_before_store (o : StoreOutcome) (mtext : String)
    (r : ReplyTarget) :
    (∃ s, Event.sendMessage s ∈
        (answer_if_user_responds_to_claude o ⟨some ⟨mtext, some r⟩⟩).takeWhile
          (fun e => !e.is_store_call)) ∧
      ∃ t st, Event.storeCall t st
        ∈ answer_if_user_responds_to_claude o ⟨some ⟨mtext, some r⟩⟩ := by
  obtain ⟨rest, hrest⟩ := store_step_head o
    (Parser.process r.text mtext).text_clean
    (BotStates.toStr (Parser.process r.text mtext).state)
  constructor
  · refine ⟨(Parser.process r.text mtext).response, ?_⟩
    by_cases hresp : (Parser.process r.text mtext).response = ""
    · simp [answer_if_user_responds_to_claude, response_debug, hresp, hrest,
        List.takeWhile_cons, Event.is_store_call]
    · simp [answer_if_user_responds_to_claude, response_debug, hresp, hrest,
        List.takeWhile_cons, Event.is_store_call]
  · refine ⟨(Parser.process r.text mtext).text_clean,
      BotStates.toStr (Parser.process r.text mtext).state, ?_⟩
    simp [answer_if_user_responds_to_claude, hrest]

/-- C4: on every inbound reply, when the store call fails (the call raises,
or returns a non-success status), the handler catches the failure and ends
with a local error-log event: the trace's last event is a `logError`, and
the handler — a total function into traces — completes normally instead of
propagating the failure. -/
theorem store_failure_logged_not_propagated (o : StoreOutcome) (mtext : String)
    (r : ReplyTarget)
    (hfail : o = StoreOutcome.returns false ∨ ∃ e, o = StoreOutcome.raises e) :
    ∃ msg, (answer_if_user_responds_to_claude o ⟨some ⟨mtext, some r⟩⟩).getLast?
        = some (Event.logError msg) := by
  obtain ⟨msg, hmsg⟩ := store_step_fail_last o
    (Parser.process r.text mtext).text_clean
    (BotStates.toStr (Parser.process r.text mtext).state) hfail
  obtain ⟨rest, hrest⟩ := store_step_head o
    (Parser.process r.text mtext).text_clean
    (BotStates.toStr (Parser.process r.text mtext).state)
  refine ⟨msg, ?_⟩
  have hne : store_step o (Parser.process r.text mtext).text_clean
      (BotStates.toStr (Parser.process r.text mtext).state) ≠ [] := by
    rw [hrest]; exact List.cons_ne_nil _ _
  calc (answer_if_user_responds_to_claude o ⟨some ⟨mtext, some r⟩⟩).getLast?
      = (store_step o (Parser.process r.text mtext).text_clean
          (BotStates.toStr (Parser.process r.text mtext).state)).getLast? :=
        List.getLast?_append_of_ne_nil _ hne
    _ = some (Event.logError msg) := hmsg

/-- C4 witness: at a concrete reply and a store call returning a falsy
status, the handler's trace ends with an error-log event. -/
theorem store_failure_logged_not_propagated_witness :
    (StoreOutcome.returns false = StoreOutcome.returns false
        ∨ ∃ e, StoreOutcome.returns false = StoreOutcome.raises e) ∧
      ∃ msg, (answer_if_user_responds_to_claude (StoreOutcome.returns false)
            ⟨some ⟨"yes", some ⟨"Do you like X"⟩⟩⟩).getLast?
          = some (Event.logError msg) :=
  ⟨Or.inl rfl, store_failure_logged_not_propagated (StoreOutcome.returns false)
    "yes" ⟨"Do you like X"⟩ (Or.inl rfl)⟩

/-- C3: every `storeCall` event the reply handler can emit carries a state
token in the range of the canonical serialization `BotStates.value`, and
both query-filter tokens of the `/fetch` handler's `fetchCall` events are
canonical tokens as well: no call site passes an ad-hoc state string. -/
theorem state_tokens_canonical :
    (∀ o u t s, Event.storeCall t s ∈ answer_if_user_responds_to_claude o u →
        ∃ st : BotStates, s = st.value) ∧
      ∀ ys ns s l, Event.fetchCall s l ∈ fetch_handler ys ns →
        ∃ st : BotStates, s = st.value := by
  constructor
  · intro o u t s hmem
    rcases u with ⟨_ | ⟨mtext, _ | r⟩⟩
    · simp [answer_if_user_responds_to_claude] at hmem
    · simp [answer_if_user_responds_to_claude] at hmem
    · refine ⟨(Parser.process r.text mtext).state, ?_⟩
      simp [answer_if_user_responds_to_claude] at hmem
      rcases hmem with h | h
      · exact absurd h (store_call_not_mem_response_debug _ _ _ _)
      · exact (store_call_mem_store_step _ _ _ _ _ h).2
  · intro ys ns s l hmem
    rw [fetch_handler_eq] at hmem
    simp [fetch_display] at hmem
    rcases hmem with ⟨hs, _⟩ | ⟨hs, _⟩ | h | h
    · exact ⟨BotStates.POSITIVE, hs⟩
    · exact ⟨BotStates.NEGATIVE, hs⟩
    · exact absurd h (fetch_call_not_mem_scan _ _ _ _ _)
    · exact absurd h (fetch_call_not_mem_scan _ _ _ _ _)

/-- C3 witness: a concrete reply classified POSITIVE makes the handler emit
a `storeCall` whose state token is in the range of the canonical
serialization. -/
theorem state_tokens_canonical_witness :
    (Event.storeCall "yes" "positive"
        ∈ answer_if_user_responds_to_claude (StoreOutcome.returns true)
            ⟨some ⟨"yes", some ⟨"Do you like X"⟩⟩⟩) ∧
      ∃ st : BotStates, "positive" = st.value :=
  ⟨by decide, state_tokens_canonical.1 (StoreOutcome.returns true)
    ⟨some ⟨"yes", some ⟨"Do you like X"⟩⟩⟩ "yes" "positive" (by decide)⟩

/-- C1: at a concrete unclassifiable reply (parser response empty), the
handler nonetheless emits a `sendMessage` with the empty text: the code
falls through to `reply_text(response)` right after logging that it is
doing nothing, so an outbound delivery of an empty message is attempted,
contradicting the specified silence. -/
theorem empty_response_still_sent :
    (Parser.process "Do you like X" "meh, I do not know").response = "" ∧
      Event.sendMessage ""
        ∈ answer_if_user_responds_to_claude (StoreOutcome.returns true)
            ⟨some ⟨"meh, I do not know", some ⟨"Do you like X"⟩⟩⟩ := by
  decide

/-- C7: for a whitespace-only reply the parser yields state UNKNOWN with
empty clean text and empty response, as specified — but the handler still
emits a `sendMessage` of the empty text and still issues
`storeCall "" "unknown"`, contradicting the claim that nothing is sent and
nothing is stored. -/
theorem blank_reply_behavior :
    Parser.process "Do you like X" " "
        = ParseResult.mk BotStates.UNKNOWN "" "" ∧
      Event.sendMessage ""
        ∈ answer_if_user_responds_to_claude (StoreOutcome.returns true)
            ⟨some ⟨" ", some ⟨"Do you like X"⟩⟩⟩ ∧
      Event.storeCall "" "unknown"
        ∈ answer_if_user_responds_to_claude (StoreOutcome.returns true)
            ⟨some ⟨" ", some ⟨"Do you like X"⟩⟩⟩ := by
  decide

end Wishengine
